import Mathlib

/-!
Verification of the `src-weather` front-end (`src/app.js`) against its
natural-language specification.

The JavaScript source is shallowly embedded: JS numbers are modelled as
exact rationals (`ℚ`), JS `null`/`undefined` as `Option.none`, thrown
exceptions as `Except.error`, and the DOM state touched by the script as an
explicit record (`AppState`).  Each definition mirrors one function of
`src/app.js`; the theorems at the end of the file settle the frozen claims.
-/

namespace SrcWeather

/-- Display language selector: the script's global `currentLang`, restricted
to the two values `"ko"` and `"en"` that the UI ever assigns. -/
inductive Lang where
  | ko
  | en
deriving DecidableEq, Repr

/-- Template-string rendering of a JS value that may be `undefined`:
`\x24{x}` prints `"undefined"` for the undefined value and the string itself
otherwise. -/
def jsStr (o : Option String) : String :=
  match o with
  | none => "undefined"
  | some s => s

/-- JS truncation toward zero, as used by the `%` remainder operator:
`Math.trunc(q)` for a finite number `q`. -/
def jsTrunc (q : ℚ) : ℤ :=
  if 0 ≤ q then ⌊q⌋ else -⌊-q⌋

/-- JS remainder `a % b` on numbers: `a - b * trunc(a / b)`; the result
keeps the sign of the dividend (it does NOT normalize into `[0, b)`). -/
def jsMod (a b : ℚ) : ℚ :=
  a - b * jsTrunc (a / b)

/-- JS `Math.round`: round half toward positive infinity,
`Math.round(x) = ⌊x + 1/2⌋`. -/
def jsRound (q : ℚ) : ℤ :=
  ⌊q + 1 / 2⌋

/-- JS array indexing `xs[i]` with a possibly negative integer index:
out-of-range access (including any negative index) yields `undefined`,
modelled as `none`. -/
def jsIndex (xs : List String) (i : ℤ) : Option String :=
  if 0 ≤ i then xs.get? i.toNat else none

/-- Korean compass labels, `dirsKo` in `windDirectionToText`. -/
def dirsKo : List String := ["북", "북동", "동", "남동", "남", "남서", "서", "북서"]

/-- English compass labels, `dirsEn` in `windDirectionToText`. -/
def dirsEn : List String := ["N", "NE", "E", "SE", "S", "SW", "W", "NW"]

/-- Embedding of `windDirectionToText(deg)` (src/app.js:114-120).
`deg === null || deg === undefined` yields the dash; otherwise
`idx = Math.round((deg % 360) / 45) % 8` (JS `%` = `Int.tmod` on the outer
integer remainder) indexes the language-selected 8-element list.  A negative
`idx` makes the JS array access return `undefined` (`none` here). -/
def windDirectionToText (lang : Lang) (deg : Option ℚ) : Option String :=
  match deg with
  | none => some "-"
  | some d =>
    let idx : ℤ := Int.tmod (jsRound (jsMod d 360 / 45)) 8
    jsIndex (match lang with | .ko => dirsKo | .en => dirsEn) idx

/-- Left-pad a string with `'0'` up to the given width (used for the
fractional part of `toFixed` and for `padStart(2, "0")`). -/
def padLeftZeros (s : String) (width : ℕ) : String :=
  if s.length < width then String.mk (List.replicate (width - s.length) '0') ++ s else s

/-- JS `Number.prototype.toFixed(digits)`: render with exactly `digits`
fractional digits, rounding half away from zero (per the ECMAScript
algorithm: a negative number renders as `"-"` followed by `toFixed` of its
negation, and the scaled value rounds half up). -/
def jsToFixed (q : ℚ) (digits : ℕ) : String :=
  let p : ℕ := 10 ^ digits
  let scaled : ℤ := ⌊|q| * (p : ℚ) + 1 / 2⌋
  let sign := if q < 0 then "-" else ""
  let ip : ℤ := scaled / (p : ℤ)
  let fp : ℕ := (scaled % (p : ℤ)).toNat
  if digits = 0 then sign ++ toString ip
  else sign ++ toString ip ++ "." ++ padLeftZeros (toString fp) digits

/-- The static unit flag `WIND_SOURCE_IS_MS` (src/app.js:19): the feed's
`wind_speed` is taken to be in m/s already. -/
def WIND_SOURCE_IS_MS : Bool := true

/-- Body of `formatWindText(speed, deg)` (src/app.js:123-138) with the
static source-unit flag abstracted as a parameter: `speed == null` yields
the dash; otherwise the value is used as-is when the flag says m/s and is
divided by 3.6 otherwise, and the result is the compass label, the value to
one decimal place, and the fixed `"m/s"` suffix. -/
def formatWindTextCore (lang : Lang) (isMs : Bool) (speed deg : Option ℚ) : String :=
  match speed with
  | none => "-"
  | some sp =>
    let valueMs := if isMs then sp else sp / 3.6
    jsStr (windDirectionToText lang deg) ++ " " ++ jsToFixed valueMs 1 ++ " m/s"

/-- Embedding of `formatWindText` as called by the program, with the flag
fixed to the configured `WIND_SOURCE_IS_MS`. -/
def formatWindText (lang : Lang) (speed deg : Option ℚ) : String :=
  formatWindTextCore lang WIND_SOURCE_IS_MS speed deg

/-- Result record of the particulate classifiers: CSS level plus the
bilingual labels, mirroring the object literals in `classifyPm10` /
`classifyPm25`. -/
structure PmInfo where
  level : String
  ko : String
  en : String
deriving DecidableEq, Repr

/-- Embedding of `classifyPm10(value)` (src/app.js:164-170): `null`
propagates, thresholds 30/80/150 with closed upper bounds. -/
def classifyPm10 (value : Option ℚ) : Option PmInfo :=
  match value with
  | none => none
  | some v =>
    if v ≤ 30 then some ⟨"good", "좋음", "Good"⟩
    else if v ≤ 80 then some ⟨"moderate", "보통", "Moderate"⟩
    else if v ≤ 150 then some ⟨"bad", "나쁨", "Bad"⟩
    else some ⟨"very-bad", "매우 나쁨", "Very bad"⟩

/-- Embedding of `classifyPm25(value)` (src/app.js:172-178): thresholds
15/35/75. -/
def classifyPm25 (value : Option ℚ) : Option PmInfo :=
  match value with
  | none => none
  | some v =>
    if v ≤ 15 then some ⟨"good", "좋음", "Good"⟩
    else if v ≤ 35 then some ⟨"moderate", "보통", "Moderate"⟩
    else if v ≤ 75 then some ⟨"bad", "나쁨", "Bad"⟩
    else some ⟨"very-bad", "매우 나쁨", "Very bad"⟩

/-- Localized `uiText.airQualityLabel`. -/
def airQualityLabel (l : Lang) : String :=
  match l with
  | .ko => "공기질"
  | .en => "Air quality"

/-- The fixed particulate unit string used by `buildAirQualityHtml`. -/
def pmUnit : String := "㎍/m³"

/-- The PM10 entry of the air-quality line, i.e. the value of `pm10Text` in
`buildAirQualityHtml` when `pm10` is present (src/app.js:201-206). -/
def pm10EntryText (l : Lang) (v : ℚ) : String :=
  match classifyPm10 (some v) with
  | none => ""
  | some i =>
    "PM10 " ++ jsToFixed v 0 ++ " " ++ pmUnit ++ " ("
      ++ (match l with | .ko => i.ko | .en => i.en) ++ ")"

/-- The PM2.5 entry of the air-quality line, i.e. the value of `pm25Text`
in `buildAirQualityHtml` when `pm25` is present (src/app.js:208-213). -/
def pm25EntryText (l : Lang) (v : ℚ) : String :=
  match classifyPm25 (some v) with
  | none => ""
  | some i =>
    "PM2.5 " ++ jsToFixed v 0 ++ " " ++ pmUnit ++ " ("
      ++ (match l with | .ko => i.ko | .en => i.en) ++ ")"

/-- Embedding of `buildAirQualityHtml(info)` (src/app.js:187-220), taking
the two readings directly: early empty return when both are missing, per
reading an entry string (empty when missing), empty entries filtered out,
and the remaining entries joined with the middle-dot separator behind the
localized label. -/
def buildAirQualityHtml (l : Lang) (pm10 pm25 : Option ℚ) : String :=
  if pm10 = none ∧ pm25 = none then ""
  else
    let pm10Text := match pm10 with | none => "" | some v => pm10EntryText l v
    let pm25Text := match pm25 with | none => "" | some v => pm25EntryText l v
    let parts := [pm10Text, pm25Text].filter (fun x => x ≠ "")
    if parts = [] then ""
    else "<div>" ++ airQualityLabel l ++ " · " ++ String.intercalate " · " parts ++ "</div>"

/-- Severity rank of a classification, following the ordering
good < moderate < bad < very-bad stated by the spec; used only to state
monotonicity. -/
def pmSeverity (i : PmInfo) : ℕ :=
  if i.level = "good" then 0
  else if i.level = "moderate" then 1
  else if i.level = "bad" then 2
  else 3

/-- Severity rank lifted to the optional classifier result. -/
def pmSeverityOpt (o : Option PmInfo) : ℕ :=
  match o with
  | none => 0
  | some i => pmSeverity i

/-- Accumulator pass of `splitChar`: collects the current chunk in reverse
in `acc` and starts a new chunk at each separator, exactly like JS
`String.prototype.split` with a single-character separator. -/
def splitCharAux (sep : Char) : List Char → List Char → List (List Char)
  | [], acc => [acc.reverse]
  | c :: cs, acc =>
    if c = sep then acc.reverse :: splitCharAux sep cs []
    else splitCharAux sep cs (c :: acc)

/-- JS `s.split(sep)` for a one-character separator: `"".split` gives
`[""]`, a leading/trailing separator gives an empty chunk. -/
def splitChar (sep : Char) (s : String) : List String :=
  (splitCharAux sep s.data []).map String.mk

/-- JS falsiness of a possibly-undefined string, as tested by
`!datePart || !timePart`: `undefined` and `""` are falsy. -/
def jsFalsy (o : Option String) : Bool :=
  match o with
  | none => true
  | some s => decide (s = "")

/-- Decimal value of a digit list, most significant first. -/
def decDigits (l : List Char) : ℕ :=
  l.foldl (fun a c => 10 * a + (c.toNat - 48)) 0

/-- Model of JS `Number(x)` restricted to the shapes this program feeds it:
`undefined` is NaN (`none`), the empty string is `0`, and an all-digit
string is its decimal value; every other string is mapped to NaN, which
agrees with JS on all inputs free of signs, whitespace, decimal points,
exponents, and radix markers (the only divergence cases, none of which can
reach a concrete statement below). -/
def jsNumberDec (o : Option String) : Option ℕ :=
  match o with
  | none => none
  | some s =>
    if s = "" then some 0
    else if s.data.all Char.isDigit then some (decDigits s.data)
    else none

/-- Template rendering of `Number(x)`: NaN prints as `"NaN"`. -/
def jsNumStr (o : Option String) : String :=
  match jsNumberDec o with
  | none => "NaN"
  | some n => toString n

/-- The formatter's local `pad2`: `String(v).padStart(2, "0")`, where `v`
may be `undefined`. -/
def pad2 (o : Option String) : String :=
  padLeftZeros (jsStr o) 2

/-- Embedding of `formatUpdatedAtLocalized(isoLikeStr)` (src/app.js:73-91):
empty input returns the empty string; the input is split on `"T"` and a
falsy date or time part returns the empty string; otherwise the date part is
split on `"-"` into year/month/day and the time part on `":"` into
hour/minute, and the localized phrase is assembled (Korean: year as-is,
month/day through `Number`, hour/minute through `pad2`; English: year
as-is, the other four components through `pad2`). -/
def formatUpdatedAtLocalized (lang : Lang) (isoLikeStr : String) : String :=
  if isoLikeStr = "" then ""
  else
    let parts := splitChar 'T' isoLikeStr
    let datePart := parts.get? 0
    let timePart := parts.get? 1
    if jsFalsy datePart || jsFalsy timePart then ""
    else
      let ds := splitChar '-' (jsStr datePart)
      let ts := splitChar ':' (jsStr timePart)
      let y := ds.get? 0
      let m := ds.get? 1
      let d := ds.get? 2
      let hh := ts.get? 0
      let mm := ts.get? 1
      match lang with
      | .ko =>
        jsStr y ++ "년 " ++ jsNumStr m ++ "월 " ++ jsNumStr d ++ "일 "
          ++ pad2 hh ++ "시 " ++ pad2 mm ++ "분에 업데이트됨"
      | .en =>
        "Updated at " ++ jsStr y ++ "-" ++ pad2 m ++ "-" ++ pad2 d ++ " "
          ++ pad2 hh ++ ":" ++ pad2 mm ++ " (KST)"

/-- Fractional digits of a rational in `[0, 1)`, most significant first,
with `fuel` bounding the number of digits produced. -/
def ratDecStrFrac : ℕ → ℚ → List Char
  | 0, _ => []
  | fuel + 1, r =>
    if r = 0 then []
    else
      let d : ℤ := ⌊r * 10⌋
      Char.ofNat (48 + d.toNat) :: ratDecStrFrac fuel (r * 10 - (d : ℚ))

/-- JS number-to-string coercion (as in template literals) for the
terminating-decimal rationals this feed carries: sign, integer part, and up
to 20 exact fractional digits with no trailing zeros.  On such values this
agrees with the shortest round-trip decimal JS prints. -/
def ratDecStr (q : ℚ) : String :=
  let sign := if q < 0 then "-" else ""
  let ip : ℤ := ⌊|q|⌋
  let frac := ratDecStrFrac 20 (|q| - (ip : ℚ))
  sign ++ toString ip ++ (if frac = [] then "" else "." ++ String.mk frac)

/-- Template rendering of `x ?? "?"` for an optional numeric score. -/
def jsShowOpt (o : Option ℚ) : String :=
  match o with
  | none => "?"
  | some q => ratDecStr q

/-- Embedding of `runScoreClass(score)` (src/app.js:155-161). -/
def runScoreClass (score : Option ℚ) : String :=
  match score with
  | none => "run-score run-score-unknown"
  | some s =>
    if s ≥ 80 then "run-score run-score-great"
    else if s ≥ 60 then "run-score run-score-good"
    else if s ≥ 40 then "run-score run-score-caution"
    else "run-score run-score-bad"

/-- Embedding of `buildNaverMapLink(lat, lon)` (src/app.js:180-184):
absent when either coordinate is missing, otherwise the deep link with
longitude before latitude and fixed view parameters. -/
def buildNaverMapLink (lat lon : Option ℚ) : Option String :=
  match lat, lon with
  | some la, some lo =>
    some ("https://map.naver.com/v5/?c=" ++ ratDecStr lo ++ "," ++ ratDecStr la
      ++ ",16,0,0,0,dh")
  | _, _ => none

/-- One course record of the feed payload: every field the renderer reads,
each optional since the JSON may omit it. -/
structure CourseInfo where
  name : Option String
  name_ko : Option String
  name_en : Option String
  temperature : Option ℚ
  apparent_temperature : Option ℚ
  wind_speed : Option ℚ
  wind_direction : Option ℚ
  rain_now : Option ℚ
  recent_rain_3h : Option ℚ
  pm10 : Option ℚ
  pm25 : Option ℚ
  run_score : Option ℚ
  wind_score : Option ℚ
  air_score : Option ℚ
  lat : Option ℚ
  lon : Option ℚ
  latitude : Option ℚ
  longitude : Option ℚ
  tags_ko : Option (List String)
  tags_en : Option (List String)
  advice_short_ko : Option String
  advice_short_en : Option String
  advice_detail_ko : Option String
  advice_detail_en : Option String
  gpx : Option String
  updated_at : Option String
deriving DecidableEq, Repr

/-- A record with every field absent. -/
def emptyInfo : CourseInfo :=
  ⟨none, none, none, none, none, none, none, none, none, none, none, none, none,
    none, none, none, none, none, none, none, none, none, none, none, none, none⟩

/-- A sparse but renderable record: exactly the four numeric fields the
card template calls `.toFixed` on are present. -/
def wellFormedInfo : CourseInfo :=
  { emptyInfo with
    temperature := some 5,
    apparent_temperature := some 3.2,
    rain_now := some 0,
    recent_rain_3h := some 0 }

/-- A record carrying only a Korean tag list with a duplicate and an empty
entry. -/
def infoTagsOnly : CourseInfo :=
  { wellFormedInfo with tags_ko := some ["약간 젖음", "약간 젖음", ""] }

/-- JS `a || b` on a possibly-undefined string: `undefined` and `""` fall
through to `b`. -/
def jsOrS (a b : Option String) : Option String :=
  match a with
  | none => b
  | some s => if s = "" then b else some s

/-- JS `a ?? b` on possibly-missing numbers. -/
def jsCoalesce (a b : Option ℚ) : Option ℚ :=
  match a with
  | none => b
  | some x => some x

/-- The tag list the card renders (src/app.js:234-236):
`currentLang === "ko" ? info.tags_ko || [] : info.tags_en || []` — used
as-is, with no filtering or deduplication. -/
def langTags (l : Lang) (info : CourseInfo) : List String :=
  match (match l with | .ko => info.tags_ko | .en => info.tags_en) with
  | none => []
  | some ts => ts

/-- One rendered tag badge (src/app.js:285-288). -/
def badgeSpanHtml (t : String) : String :=
  "<span class=\"badge\" style=\"margin-right:4px;\">" ++ t ++ "</span>"

/-- The card's tag block (src/app.js:281-292): a wrapper div around the
joined badge spans when the list is nonempty, nothing otherwise (template
whitespace between elements elided). -/
def tagListHtml (tags : List String) : String :=
  if tags.length ≠ 0 then
    "<div style=\"margin-bottom:4px;\">" ++ String.join (tags.map badgeSpanHtml)
      ++ "</div>"
  else ""

/-- Modelled from the spec (§4.3 step 4, the claim under test): the
deduplicated tag list — empty entries dropped, any tag equal to the
already-rendered badge suppressed, duplicates suppressed keeping the first
occurrence in order.  This is the `uniqueTags` loop of the README variant
of `renderCourseCard`, which the shipped renderer does not perform. -/
def dedupTagsSpec (badge : Option String) (tags : List String) : List String :=
  tags.foldl
    (fun acc t =>
      if t = "" then acc
      else if some t = badge then acc
      else if t ∈ acc then acc
      else acc ++ [t])
    []

/-- The positional wind tag (src/app.js:247-250):
`(tags[1]) || null` behind a truthiness check of the tag array. -/
def windTagOf (l : Lang) (info : CourseInfo) : Option String :=
  match (match l with | .ko => info.tags_ko | .en => info.tags_en) with
  | none => none
  | some ts =>
    match ts.get? 1 with
    | none => none
    | some t => if t = "" then none else some t

/-- The positional air tag (src/app.js:251-258): `tags[3]` when the array
has more than three entries, `null` otherwise. -/
def airTagOf (l : Lang) (info : CourseInfo) : Option String :=
  match (match l with | .ko => info.tags_ko | .en => info.tags_en) with
  | none => none
  | some ts => if 3 < ts.length then ts.get? 3 else none

/-- Rendering of `tag ? "· " + tag : ""` appended after a sub-score. -/
def tagSuffix (o : Option String) : String :=
  match o with
  | none => ""
  | some t => if t = "" then "" else "· " ++ t

/-- JS truthiness of a possibly-undefined string used as a bare condition. -/
def truthyS (o : Option String) : Bool :=
  match o with
  | none => false
  | some s => decide (s ≠ "")

/-- JS member call `x.toFixed(digits)` on a possibly-missing number:
calling a method on `undefined`/`null` throws a TypeError, modelled as
`Except.error`. -/
def optToFixedE (o : Option ℚ) (digits : ℕ) : Except Unit String :=
  match o with
  | none => Except.error ()
  | some q => Except.ok (jsToFixed q digits)

/-- Embedding of `renderCourseCard(info)` (src/app.js:222-355): the card's
`innerHTML` as a string (template whitespace between elements elided),
with `Except.error` for the TypeError thrown when one of `temperature`,
`apparent_temperature`, `rain_now`, `recent_rain_3h` is missing and the
template calls `.toFixed` on `undefined`. -/
def renderCourseCard (l : Lang) (info : CourseInfo) : Except Unit String := do
  let displayName :=
    jsStr (jsOrS (match l with | .ko => info.name_ko | .en => info.name_en) info.name)
  let windText := formatWindText l info.wind_speed info.wind_direction
  let tags := langTags l info
  let adviceShort := match l with | .ko => info.advice_short_ko | .en => info.advice_short_en
  let adviceDetail := match l with | .ko => info.advice_detail_ko | .en => info.advice_detail_en
  let lat := jsCoalesce info.lat info.latitude
  let lon := jsCoalesce info.lon info.longitude
  let locationLink := buildNaverMapLink lat lon
  let windTag := windTagOf l info
  let airTag := airTagOf l info
  let runLabel := match l with | .ko => "러닝 지수" | .en => "Run index"
  let tempLabel := match l with | .ko => "현재 기온" | .en => "Air temp"
  let feelsLabel := match l with | .ko => "체감" | .en => "Feels like"
  let windLabel := match l with | .ko => "바람" | .en => "Wind"
  let rainNowLabel := match l with | .ko => "현재 비" | .en => "Rain now"
  let rain3hLabel := match l with | .ko => "최근 3시간 비" | .en => "Rain (last 3h)"
  let gpxLabel := match l with | .ko => "GPX 파일 열기" | .en => "Open GPX file"
  let airQualityHtml := buildAirQualityHtml l info.pm10 info.pm25
  let tempS ← optToFixedE info.temperature 1
  let appTempS ← optToFixedE info.apparent_temperature 1
  let rainNowS ← optToFixedE info.rain_now 1
  let rain3hS ← optToFixedE info.recent_rain_3h 1
  let runScoreSpan :=
    "<span class=\"" ++ runScoreClass info.run_score ++ "\">"
      ++ jsShowOpt info.run_score ++ "</span>"
  let locationHtml :=
    match lat, lon with
    | some la, some lo =>
      "<div>" ++ (match l with | .ko => "위치" | .en => "Location") ++ " "
        ++ jsToFixed la 5 ++ ", " ++ jsToFixed lo 5 ++ "</div>"
        ++ (match locationLink with
            | some link =>
              "<a class=\"location-link\" href=\"" ++ link
                ++ "\" target=\"_blank\" rel=\"noopener\">"
                ++ (match l with | .ko => "네이버맵에서 보기" | .en => "Open in Naver Map")
                ++ "</a>"
            | none => "")
    | _, _ =>
      "<div>" ++ (match l with | .ko => "위치 정보 없음" | .en => "No location info")
        ++ "</div>"
  let scoreRows :=
    "<div class=\"score-rows\"><div class=\"score-row\"><span class=\"score-label\">"
      ++ (match l with | .ko => "바람 점수" | .en => "Wind score") ++ "</span><span>"
      ++ jsShowOpt info.wind_score ++ "/100 " ++ tagSuffix windTag ++ "</span></div>"
      ++ "<div class=\"score-row\"><span class=\"score-label\">"
      ++ (match l with | .ko => "공기질" | .en => "Air quality") ++ "</span><span>"
      ++ jsShowOpt info.air_score ++ "/100 " ++ tagSuffix airTag ++ "</span></div></div>"
  let adviceBox :=
    if truthyS adviceShort || truthyS adviceDetail then
      "<div class=\"advice-box\">"
        ++ (if truthyS adviceShort then
              "<div class=\"advice-short\">" ++ jsStr adviceShort ++ "</div>"
            else "")
        ++ (if truthyS adviceDetail then
              "<div class=\"advice-detail\">" ++ jsStr adviceDetail ++ "</div>"
            else "")
        ++ "</div>"
    else ""
  let gpxHtml :=
    if truthyS info.gpx then
      "<div class=\"course-actions\" style=\"margin-top:6px;\"><a class=\"gpx-link\" href=\""
        ++ jsStr info.gpx ++ "\" target=\"_blank\" rel=\"noopener\">" ++ gpxLabel
        ++ "</a></div>"
    else ""
  Except.ok
    ("<div class=\"course-title\"><span>" ++ displayName ++ "</span>" ++ runScoreSpan
      ++ "</div>"
      ++ "<div class=\"course-meta\">"
      ++ "<div class=\"run-index-row\" style=\"margin-bottom:4px;\"><strong>" ++ runLabel
      ++ "</strong> " ++ jsShowOpt info.run_score ++ "/100</div>"
      ++ tagListHtml tags
      ++ "<div>" ++ tempLabel ++ " " ++ tempS ++ "°C · " ++ feelsLabel ++ " " ++ appTempS
      ++ "°C</div>"
      ++ "<div>" ++ windLabel ++ " " ++ windText ++ "</div>"
      ++ "<div>" ++ rainNowLabel ++ " " ++ rainNowS ++ " mm · " ++ rain3hLabel ++ " "
      ++ rain3hS ++ " mm</div>"
      ++ (if airQualityHtml ≠ "" then
            "<div style=\"margin-top:4px;\">" ++ airQualityHtml ++ "</div>"
          else "")
      ++ "<div class=\"location-row\">" ++ locationHtml ++ "</div>"
      ++ scoreRows
      ++ adviceBox
      ++ gpxHtml
      ++ "</div>")

/-- The `forEach` loop of `renderAllCourses` (src/app.js:361-363): appends
each rendered card in order; a thrown card aborts the loop, keeping only
the cards already appended and propagating the exception (`true` in the
second component). -/
def renderCards (l : Lang) : List CourseInfo → List String × Bool
  | [] => ([], false)
  | i :: rest =>
    match renderCourseCard l i with
    | Except.error _ => ([], true)
    | Except.ok card =>
      let r := renderCards l rest
      (card :: r.1, r.2)

/-- The feed payload: a JSON object whose `courses` field (possibly
absent) holds the course records. -/
structure FeedPayload where
  courses : Option (List CourseInfo)
deriving DecidableEq, Repr

/-- Localized `uiText.statusLoading`. -/
def statusLoadingText (l : Lang) : String :=
  match l with
  | .ko => "SRC 러너용 날씨 데이터를 불러오는 중…"
  | .en => "Loading weather data for SRC runners…"

/-- Localized `uiText.statusLoaded(count)`. -/
def statusLoadedText (l : Lang) (count : ℕ) : String :=
  match l with
  | .ko => "SRC의 주요 " ++ toString count ++ "개 코스의 날씨를 불러왔습니다. 화이팅! 🏃‍♂️"
  | .en => "Loaded conditions for SRC major " ++ toString count ++ " courses. Fighting! 🏃‍♂️"

/-- Localized `uiText.fail`. -/
def failText (l : Lang) : String :=
  match l with
  | .ko => "코스 데이터를 불러오는데 실패했습니다. 잠시 후 다시 시도해 주세요."
  | .en => "Failed to load course data. Please try again later."

/-- Localized `uiText.appTitle`. -/
def appTitleText (l : Lang) : String :=
  match l with
  | .ko => "SRC 날씨 정보"
  | .en => "SRC Weather Information"

/-- Localized `uiText.appSubtitle`. -/
def appSubtitleText (l : Lang) : String :=
  match l with
  | .ko => "SRC 러너들을 위한 현재 코스 상황"
  | .en => "Current course conditions for SRC runners"

/-- Localized `uiText.courseListTitle`. -/
def courseListTitleText (l : Lang) : String :=
  match l with
  | .ko => "코스별 현재 상황"
  | .en => "Current conditions by course"

/-- The page state the script mutates: the two globals (`currentLang`,
`LAST_DATA`), the DOM text the script writes (status area, course cards,
three static labels, active language button, last-updated line), plus a
ghost counter of fetches performed, used only to state that an operation
does not fetch. -/
structure AppState where
  currentLang : Lang
  lastData : Option FeedPayload
  statusHtml : String
  coursesHtml : List String
  appTitle : String
  appSubtitle : String
  courseListTitle : String
  activeBtn : Lang
  updatedText : String
  fetchCount : ℕ
deriving DecidableEq, Repr

/-- `LAST_DATA.courses || []` behind the `LAST_DATA` null check. -/
def coursesOf (d : Option FeedPayload) : List CourseInfo :=
  match d with
  | none => []
  | some p => match p.courses with | none => [] | some cs => cs

/-- Embedding of `getCommonUpdatedAt()` (src/app.js:95-100): the first
course's `updated_at || null`, `null` when there is no payload or no first
course. -/
def getCommonUpdatedAt (d : Option FeedPayload) : Option String :=
  match d with
  | none => none
  | some p =>
    match p.courses with
    | none => none
    | some [] => none
    | some (c :: _) =>
      match c.updated_at with
      | none => none
      | some s => if s = "" then none else some s

/-- The text `renderUpdatedAt()` (src/app.js:103-111) writes into the
last-updated line: empty when `getCommonUpdatedAt` is `null`, the
localized phrase otherwise. -/
def updatedTextFor (l : Lang) (d : Option FeedPayload) : String :=
  match getCommonUpdatedAt d with
  | none => ""
  | some iso => formatUpdatedAtLocalized l iso

/-- The text `renderStatus()` (src/app.js:366-377) writes: the loading
message without a payload, the per-count loaded message with one. -/
def statusTextFor (l : Lang) (d : Option FeedPayload) : String :=
  match d with
  | none => statusLoadingText l
  | some _ => statusLoadedText l (coursesOf d).length

/-- State transition of `renderStatus()`. -/
def renderStatusFn (s : AppState) : AppState :=
  { s with statusHtml := "<p>" ++ statusTextFor s.currentLang s.lastData ++ "</p>" }

/-- State transition of `renderUpdatedAt()`. -/
def renderUpdatedAtFn (s : AppState) : AppState :=
  { s with updatedText := updatedTextFor s.currentLang s.lastData }

/-- State transition of `applyLanguage()` (src/app.js:56-70): rewrite the
three static labels and the active button from the current language, then
re-render the status line and the last-updated line. -/
def applyLanguageFn (s : AppState) : AppState :=
  renderUpdatedAtFn (renderStatusFn
    { s with
      appTitle := appTitleText s.currentLang,
      appSubtitle := appSubtitleText s.currentLang,
      courseListTitle := courseListTitleText s.currentLang,
      activeBtn := s.currentLang })

/-- State transition of `renderAllCourses()` (src/app.js:357-364): a
missing payload returns immediately; otherwise the container is cleared
and the cards are appended until one throws (`true` signals the
propagating exception). -/
def renderAllCoursesFn (s : AppState) : AppState × Bool :=
  match s.lastData with
  | none => (s, false)
  | some p =>
    let r := renderCards s.currentLang (match p.courses with | none => [] | some cs => cs)
    ({ s with coursesHtml := r.1 }, r.2)

/-- State transition of `init()` (src/app.js:379-401), with the outcome of
the awaited fetch+decode passed in: the try block applies the language and
renders the status, performs the fetch (counted by the ghost counter); on
failure the catch sets only the failure status; on success the payload is
stored and status, last-updated line and cards are re-rendered — and if a
card throws inside the try, the catch also sets the failure status. -/
def init (fetchResult : Except Unit FeedPayload) (s : AppState) : AppState :=
  let s1 := applyLanguageFn s
  let s2 := renderStatusFn s1
  let s3 := { s2 with fetchCount := s2.fetchCount + 1 }
  match fetchResult with
  | Except.error _ => { s3 with statusHtml := "<p>" ++ failText s3.currentLang ++ "</p>" }
  | Except.ok data =>
    let s4 := { s3 with lastData := some data }
    let s5 := renderStatusFn s4
    let s6 := renderUpdatedAtFn s5
    let r := renderAllCoursesFn s6
    if r.2 then { r.1 with statusHtml := "<p>" ++ failText r.1.currentLang ++ "</p>" }
    else r.1

/-- State transition of the language button click listener
(src/app.js:404-412): a missing `data-lang` or the already-active language
is a no-op; otherwise the global language is switched, the labels are
re-applied and all cards re-rendered from the cached payload — no fetch. -/
def clickLang (btnLang : Option Lang) (s : AppState) : AppState :=
  match btnLang with
  | none => s
  | some l =>
    if l = s.currentLang then s
    else (renderAllCoursesFn (applyLanguageFn { s with currentLang := l })).1

/-- The fully-rendered state for a language and cached payload: the state
reached after `applyLanguage`, `renderStatus`, `renderUpdatedAt` and
`renderAllCourses` have all run on the stored payload. -/
def mkState (l : Lang) (d : Option FeedPayload) (fc : ℕ) : AppState :=
  (renderAllCoursesFn (applyLanguageFn
    ⟨l, d, "", [], "", "", "", l, "", fc⟩)).1

/-- Consistency of the language-dependent text fields with the current
language and stored payload (what holds after any full render pass). -/
def titlesConsistent (s : AppState) : Prop :=
  s.appTitle = appTitleText s.currentLang
  ∧ s.appSubtitle = appSubtitleText s.currentLang
  ∧ s.courseListTitle = courseListTitleText s.currentLang
  ∧ s.activeBtn = s.currentLang
  ∧ s.updatedText = updatedTextFor s.currentLang s.lastData

/-- C7 (confirmed): a missing speed yields the placeholder dash for every
bearing; a present speed is divided by 3.6 exactly when the source-unit
flag says the feed is km/h (and used as-is otherwise, which is the
configured case since `WIND_SOURCE_IS_MS = true`), formatted to one decimal
place, and concatenated with the compass label and the fixed `"m/s"`
suffix. -/
theorem c7_format_wind (lang : Lang) (isMs : Bool) (deg : Option ℚ) (sp : ℚ) :
    formatWindTextCore lang isMs none deg = "-"
    ∧ formatWindTextCore lang isMs (some sp) deg
        = jsStr (windDirectionToText lang deg) ++ " "
          ++ jsToFixed (if isMs then sp else sp / 3.6) 1 ++ " m/s"
    ∧ WIND_SOURCE_IS_MS = true
    ∧ formatWindText lang (some sp) deg
        = jsStr (windDirectionToText lang deg) ++ " " ++ jsToFixed sp 1 ++ " m/s" := by
  refine ⟨rfl, ?_, rfl, rfl⟩
  cases isMs <;> rfl

/-- Floor of a concrete rational, characterized by its two bounds. -/
theorem floor_eq_of_bounds (q : ℚ) (n : ℤ) (h1 : (n : ℚ) ≤ q) (h2 : q < n + 1) :
    ⌊q⌋ = n :=
  Int.floor_eq_iff.mpr ⟨h1, h2⟩

/-- On a nonnegative argument, JS truncation agrees with the floor. -/
theorem jsTrunc_of_nonneg (q : ℚ) (h : 0 ≤ q) : jsTrunc q = ⌊q⌋ := by
  simp [jsTrunc, h]

/-- On a nonnegative dividend, `deg % 360` is `deg - 360 * ⌊deg / 360⌋`. -/
theorem jsMod_360_of_nonneg (d : ℚ) (h : 0 ≤ d) :
    jsMod d 360 = d - 360 * ⌊d / 360⌋ := by
  rw [jsMod, jsTrunc_of_nonneg _ (by positivity)]

/-- On a nonnegative dividend, `deg % 360` lands in `[0, 360)`. -/
theorem jsMod_360_bounds (d : ℚ) (h : 0 ≤ d) :
    0 ≤ jsMod d 360 ∧ jsMod d 360 < 360 := by
  rw [jsMod_360_of_nonneg d h]
  have hfr : d - 360 * ⌊d / 360⌋ = 360 * Int.fract (d / 360) := by
    rw [Int.fract]
    ring_nf
  constructor
  · rw [hfr]
    have := Int.fract_nonneg (d / 360)
    positivity
  · rw [hfr]
    have := Int.fract_lt_one (d / 360)
    linarith

/-- Adding a full turn does not change the JS remainder on nonnegative input. -/
theorem jsMod_add_360 (d : ℚ) (h : 0 ≤ d) :
    jsMod (d + 360) 360 = jsMod d 360 := by
  rw [jsMod_360_of_nonneg d h, jsMod_360_of_nonneg (d + 360) (by linarith)]
  have hdiv : (d + 360) / 360 = d / 360 + 1 := by
    field_simp
  rw [hdiv, Int.floor_add_one]
  push_cast
  ring

/-- The rounded index lies in `[0, 8]` when the remainder lies in `[0, 360)`. -/
theorem jsRound_idx_bounds (m : ℚ) (h0 : 0 ≤ m) (h1 : m < 360) :
    0 ≤ jsRound (m / 45) ∧ jsRound (m / 45) ≤ 8 := by
  constructor
  · rw [jsRound]
    apply Int.le_floor.mpr
    push_cast
    positivity
  · rw [jsRound]
    have : ⌊m / 45 + 1 / 2⌋ < 9 := by
      apply Int.floor_lt.mpr
      push_cast
      linarith
    omega

/-- Evaluation of the final indexing step for an integer index in `[0, 8]`:
the JS truncated remainder agrees with the mathematical `mod 8` and stays in
range of the 8-element list. -/
theorem jsIndex_tmod_eq (xs : List String) (j : ℤ) (h0 : 0 ≤ j) (h8 : j ≤ 8) :
    jsIndex xs (Int.tmod j 8) = xs.get? (j.toNat % 8) := by
  interval_cases j <;> rfl

/-- C1 (amended): on NONNEGATIVE bearings the function normalizes into
`[0, 360)` and computes `round((deg % 360) / 45) mod 8` as an index into
the 8-element compass list, always producing a label; it is periodic with
period 360 on nonnegative bearings — `deg` and `deg + 360` agree for every
`deg ≥ 0`, hence `deg` and `deg - 360` agree whenever `deg ≥ 360`; `0` maps
to `"N"`/`"북"` and `45` to `"NE"`/`"북동"`.  (On a negative bearing the JS
remainder keeps its sign and the rounded index CAN be negative — at `-315`
it is `-7` and the array access yields `undefined` — which is what refutes
the claimed universal periodicity toward `deg - 360`; other negative
bearings still happen to reduce to index 0 and yield a label.) -/
theorem c1_bearing_label_amended (lang : Lang) (deg : ℚ) (h : 0 ≤ deg) :
    windDirectionToText lang (some (deg + 360)) = windDirectionToText lang (some deg)
    ∧ (360 ≤ deg →
        windDirectionToText lang (some (deg - 360)) = windDirectionToText lang (some deg))
    ∧ windDirectionToText lang (some deg)
        = (match lang with | .ko => dirsKo | .en => dirsEn).get?
            ((jsRound ((deg - 360 * ⌊deg / 360⌋) / 45)).toNat % 8)
    ∧ (windDirectionToText lang (some deg)).isSome = true
    ∧ windDirectionToText Lang.en (some 0) = some "N"
    ∧ windDirectionToText Lang.ko (some 0) = some "북"
    ∧ windDirectionToText Lang.en (some 45) = some "NE"
    ∧ windDirectionToText Lang.ko (some 45) = some "북동" := by
  have hmb := jsMod_360_bounds deg h
  have hjb := jsRound_idx_bounds (jsMod deg 360) hmb.1 hmb.2
  have hform : windDirectionToText lang (some deg)
      = (match lang with | .ko => dirsKo | .en => dirsEn).get?
          ((jsRound ((deg - 360 * ⌊deg / 360⌋) / 45)).toNat % 8) := by
    show jsIndex _ _ = _
    rw [← jsMod_360_of_nonneg deg h]
    exact jsIndex_tmod_eq _ _ hjb.1 hjb.2
  have hm0 : jsMod (0 : ℚ) 360 = 0 := by
    rw [jsMod_360_of_nonneg 0 le_rfl]
    norm_num
  have hm45 : jsMod (45 : ℚ) 360 = 45 := by
    rw [jsMod_360_of_nonneg 45 (by norm_num)]
    rw [floor_eq_of_bounds (45 / 360) 0 (by norm_num) (by norm_num)]
    norm_num
  have hr0 : jsRound ((0 : ℚ) / 45) = 0 := by
    rw [jsRound]
    exact floor_eq_of_bounds _ 0 (by norm_num) (by norm_num)
  have hr45 : jsRound ((45 : ℚ) / 45) = 1 := by
    rw [jsRound]
    exact floor_eq_of_bounds _ 1 (by norm_num) (by norm_num)
  refine ⟨?_, ?_, hform, ?_, ?_, ?_, ?_, ?_⟩
  · show jsIndex _ _ = jsIndex _ _
    rw [jsMod_add_360 deg h]
  · intro h360
    have h0 : (0 : ℚ) ≤ deg - 360 := by linarith
    have hp : jsMod (deg - 360 + 360) 360 = jsMod (deg - 360) 360 := jsMod_add_360 _ h0
    have hsum : deg - 360 + 360 = deg := by ring
    rw [hsum] at hp
    show jsIndex _ _ = jsIndex _ _
    rw [hp]
  · rw [hform]
    have hlt : (jsRound ((deg - 360 * ⌊deg / 360⌋) / 45)).toNat % 8 < 8 :=
      Nat.mod_lt _ (by norm_num)
    cases lang <;>
      · simp only []
        rw [List.get?_eq_get (by simpa using hlt)]
        rfl
  · show jsIndex dirsEn (Int.tmod (jsRound (jsMod 0 360 / 45)) 8) = some "N"
    rw [hm0, hr0]
    decide
  · show jsIndex dirsKo (Int.tmod (jsRound (jsMod 0 360 / 45)) 8) = some "북"
    rw [hm0, hr0]
    decide
  · show jsIndex dirsEn (Int.tmod (jsRound (jsMod 45 360 / 45)) 8) = some "NE"
    rw [hm45, hr45]
    decide
  · show jsIndex dirsKo (Int.tmod (jsRound (jsMod 45 360 / 45)) 8) = some "북동"
    rw [hm45, hr45]
    decide

/-- C1 counterexample: the claim asserts the label of `deg - 360` equals the
label of `deg` for EVERY bearing, but at `deg = 45` the JS remainder of
`45 - 360 = -315` is `-315` itself (not normalized into `[0, 360)`), the
rounded index is `-7`, and the array access returns `undefined` instead of
`"NE"`. -/
theorem c1_counterexample :
    ¬ (windDirectionToText Lang.en (some (45 - 360)) = windDirectionToText Lang.en (some 45)) := by
  have h45 : windDirectionToText Lang.en (some 45) = some "NE" := by
    have hm45 : jsMod (45 : ℚ) 360 = 45 := by
      rw [jsMod_360_of_nonneg 45 (by norm_num)]
      rw [floor_eq_of_bounds (45 / 360) 0 (by norm_num) (by norm_num)]
      norm_num
    show jsIndex dirsEn (Int.tmod (jsRound (jsMod 45 360 / 45)) 8) = some "NE"
    rw [hm45]
    rw [show jsRound ((45 : ℚ) / 45) = 1 from
      floor_eq_of_bounds _ 1 (by norm_num) (by norm_num)]
    decide
  have hneg : windDirectionToText Lang.en (some (45 - 360)) = none := by
    show jsIndex dirsEn (Int.tmod (jsRound (jsMod (45 - 360) 360 / 45)) 8) = none
    have htr : jsTrunc ((45 - 360 : ℚ) / 360) = 0 := by
      rw [jsTrunc, if_neg (by norm_num)]
      rw [floor_eq_of_bounds (-((45 - 360 : ℚ) / 360)) 0 (by norm_num) (by norm_num)]
      norm_num
    have hm : jsMod (45 - 360 : ℚ) 360 = -315 := by
      rw [jsMod, htr]
      norm_num
    rw [hm]
    rw [show jsRound ((-315 : ℚ) / 45) = -7 from
      floor_eq_of_bounds _ (-7) (by norm_num) (by norm_num)]
    decide
  rw [h45, hneg]
  simp

/-- C1 witness: the amended theorem applied at the concrete nonnegative
bearing `50`. -/
theorem c1_witness :
    (0 : ℚ) ≤ 50
    ∧ windDirectionToText Lang.en (some (50 + 360)) = windDirectionToText Lang.en (some 50) :=
  ⟨by norm_num, (c1_bearing_label_amended Lang.en 50 (by norm_num)).1⟩

/-- String concatenation acts on the underlying character lists. -/
theorem string_data_append (a b : String) : (a ++ b).data = a.data ++ b.data := by
  cases a
  cases b
  rfl

/-- A concatenation whose left part is nonempty is a nonempty string. -/
theorem append_ne_empty_of_left_ne (a b : String) (h : a ≠ "") : a ++ b ≠ "" := by
  intro hc
  apply h
  have h2 := congrArg String.data hc
  rw [string_data_append] at h2
  have h3 := (List.append_eq_nil.mp h2).1
  exact congrArg String.mk h3

/-- A concatenation whose right part is nonempty is a nonempty string. -/
theorem append_ne_empty_of_right_ne (a b : String) (h : b ≠ "") : a ++ b ≠ "" := by
  intro hc
  apply h
  have h2 := congrArg String.data hc
  rw [string_data_append] at h2
  exact congrArg String.mk (List.append_eq_nil.mp h2).2

/-- The PM10 classifier always classifies a present reading. -/
theorem classifyPm10_isSome (v : ℚ) : ∃ i, classifyPm10 (some v) = some i := by
  simp only [classifyPm10]
  split_ifs <;> exact ⟨_, rfl⟩

/-- The PM2.5 classifier always classifies a present reading. -/
theorem classifyPm25_isSome (v : ℚ) : ∃ i, classifyPm25 (some v) = some i := by
  simp only [classifyPm25]
  split_ifs <;> exact ⟨_, rfl⟩

/-- A present PM10 reading renders a nonempty entry. -/
theorem pm10EntryText_ne_empty (l : Lang) (v : ℚ) : pm10EntryText l v ≠ "" := by
  obtain ⟨i, hi⟩ := classifyPm10_isSome v
  rw [pm10EntryText, hi]
  repeat apply append_ne_empty_of_left_ne
  decide

/-- A present PM2.5 reading renders a nonempty entry. -/
theorem pm25EntryText_ne_empty (l : Lang) (v : ℚ) : pm25EntryText l v ≠ "" := by
  obtain ⟨i, hi⟩ := classifyPm25_isSome v
  rw [pm25EntryText, hi]
  repeat apply append_ne_empty_of_left_ne
  decide

/-- The PM10 severity rank as a function of the reading. -/
theorem pm10_severity_eval (v : ℚ) :
    pmSeverityOpt (classifyPm10 (some v))
      = if v ≤ 30 then 0 else if v ≤ 80 then 1 else if v ≤ 150 then 2 else 3 := by
  simp only [classifyPm10]
  split_ifs <;> rfl

/-- The PM2.5 severity rank as a function of the reading. -/
theorem pm25_severity_eval (v : ℚ) :
    pmSeverityOpt (classifyPm25 (some v))
      = if v ≤ 15 then 0 else if v ≤ 35 then 1 else if v ≤ 75 then 2 else 3 := by
  simp only [classifyPm25]
  split_ifs <;> rfl

/-- Joining a one-element list inserts no separator. -/
theorem intercalate_single (sep x : String) : String.intercalate sep [x] = x := by
  cases x
  rfl

/-- Joining a two-element list inserts the separator once. -/
theorem intercalate_pair (sep a b : String) :
    String.intercalate sep [a, b] = a ++ sep ++ b := by
  cases a
  cases b
  cases sep
  rfl

/-- String concatenation is associative. -/
theorem string_append_assoc (a b c : String) : a ++ b ++ c = a ++ (b ++ c) := by
  cases a
  cases b
  cases c
  exact congrArg String.mk (List.append_assoc _ _ _)

/-- The air-quality line with both readings absent is empty. -/
theorem buildAir_none (l : Lang) : buildAirQualityHtml l none none = "" := by
  simp [buildAirQualityHtml]

/-- The air-quality line with both readings present joins the two entries. -/
theorem buildAir_both (l : Lang) (v w : ℚ) :
    buildAirQualityHtml l (some v) (some w)
      = "<div>" ++ airQualityLabel l ++ " · " ++ pm10EntryText l v ++ " · "
        ++ pm25EntryText l w ++ "</div>" := by
  have h1 := pm10EntryText_ne_empty l v
  have h2 := pm25EntryText_ne_empty l w
  simp [buildAirQualityHtml, h1, h2, intercalate_pair, string_append_assoc]

/-- The air-quality line with only PM2.5 present contains exactly the PM2.5
entry. -/
theorem buildAir_pm25_only (l : Lang) (w : ℚ) :
    buildAirQualityHtml l none (some w)
      = "<div>" ++ airQualityLabel l ++ " · " ++ pm25EntryText l w ++ "</div>" := by
  have h2 := pm25EntryText_ne_empty l w
  simp [buildAirQualityHtml, h2, intercalate_single, string_append_assoc]

/-- The air-quality line with only PM10 present contains exactly the PM10
entry. -/
theorem buildAir_pm10_only (l : Lang) (v : ℚ) :
    buildAirQualityHtml l (some v) none
      = "<div>" ++ airQualityLabel l ++ " · " ++ pm10EntryText l v ++ "</div>" := by
  have h1 := pm10EntryText_ne_empty l v
  simp [buildAirQualityHtml, h1, intercalate_single, string_append_assoc]

/-- C6 (confirmed): a present PM10 reading is classified into exactly one of
good/moderate/bad/very-bad with closed upper tier bounds 30/80/150, PM2.5
analogously with 15/35/75, severity is monotone in the reading, a missing
reading classifies as absent, and an absent reading makes the corresponding
entry disappear from the air-quality line instead of a placeholder. -/
theorem c6_particulate_classifier (v w x : ℚ) (l : Lang) (hvw : v ≤ w) :
    classifyPm10 none = none
    ∧ classifyPm25 none = none
    ∧ (∃ i, classifyPm10 (some v) = some i
        ∧ (i.level = "good" ∨ i.level = "moderate" ∨ i.level = "bad" ∨ i.level = "very-bad"))
    ∧ (∃ i, classifyPm25 (some v) = some i
        ∧ (i.level = "good" ∨ i.level = "moderate" ∨ i.level = "bad" ∨ i.level = "very-bad"))
    ∧ pmSeverityOpt (classifyPm10 (some v)) ≤ pmSeverityOpt (classifyPm10 (some w))
    ∧ pmSeverityOpt (classifyPm25 (some v)) ≤ pmSeverityOpt (classifyPm25 (some w))
    ∧ (classifyPm10 (some v) = some ⟨"good", "좋음", "Good"⟩ ↔ v ≤ 30)
    ∧ (classifyPm10 (some v) = some ⟨"moderate", "보통", "Moderate"⟩ ↔ 30 < v ∧ v ≤ 80)
    ∧ (classifyPm10 (some v) = some ⟨"bad", "나쁨", "Bad"⟩ ↔ 80 < v ∧ v ≤ 150)
    ∧ (classifyPm10 (some v) = some ⟨"very-bad", "매우 나쁨", "Very bad"⟩ ↔ 150 < v)
    ∧ (classifyPm25 (some v) = some ⟨"good", "좋음", "Good"⟩ ↔ v ≤ 15)
    ∧ (classifyPm25 (some v) = some ⟨"moderate", "보통", "Moderate"⟩ ↔ 15 < v ∧ v ≤ 35)
    ∧ (classifyPm25 (some v) = some ⟨"bad", "나쁨", "Bad"⟩ ↔ 35 < v ∧ v ≤ 75)
    ∧ (classifyPm25 (some v) = some ⟨"very-bad", "매우 나쁨", "Very bad"⟩ ↔ 75 < v)
    ∧ buildAirQualityHtml l none (some x)
        = "<div>" ++ airQualityLabel l ++ " · " ++ pm25EntryText l x ++ "</div>"
    ∧ buildAirQualityHtml l (some x) none
        = "<div>" ++ airQualityLabel l ++ " · " ++ pm10EntryText l x ++ "</div>" := by
  refine ⟨rfl, rfl, ?_, ?_, ?_, ?_, ?_, ?_, ?_, ?_, ?_, ?_, ?_, ?_,
    buildAir_pm25_only l x, buildAir_pm10_only l x⟩
  · simp only [classifyPm10]
    split_ifs <;> simp
  · simp only [classifyPm25]
    split_ifs <;> simp
  · rw [pm10_severity_eval, pm10_severity_eval]
    split_ifs <;> first | omega | linarith
  · rw [pm25_severity_eval, pm25_severity_eval]
    split_ifs <;> first | omega | linarith
  · simp only [classifyPm10]
    split_ifs <;> simp_all <;> intros <;> linarith
  · simp only [classifyPm10]
    split_ifs <;> simp_all <;> intros <;> linarith
  · simp only [classifyPm10]
    split_ifs <;> simp_all <;> intros <;> linarith
  · simp only [classifyPm10]
    split_ifs <;> simp_all <;> intros <;> linarith
  · simp only [classifyPm25]
    split_ifs <;> simp_all <;> intros <;> linarith
  · simp only [classifyPm25]
    split_ifs <;> simp_all <;> intros <;> linarith
  · simp only [classifyPm25]
    split_ifs <;> simp_all <;> intros <;> linarith
  · simp only [classifyPm25]
    split_ifs <;> simp_all <;> intros <;> linarith

/-- C6 witness: the classifier theorem applied at the concrete readings
10 and 100. -/
theorem c6_witness :
    (10 : ℚ) ≤ 100
    ∧ pmSeverityOpt (classifyPm10 (some 10)) ≤ pmSeverityOpt (classifyPm10 (some 100)) :=
  ⟨by decide, (c6_particulate_classifier 10 100 20 Lang.en (by decide)).2.2.2.2.1⟩

/-- C8 (confirmed): the air-quality line is empty exactly when both
readings are missing; otherwise it joins the present entries with the
middle-dot separator behind the localized label, so a record with only
PM2.5 yields exactly one particulate entry. -/
theorem c8_air_quality_line (l : Lang) (v w : ℚ) (p10 p25 : Option ℚ) :
    buildAirQualityHtml l none none = ""
    ∧ (buildAirQualityHtml l p10 p25 = "" ↔ (p10 = none ∧ p25 = none))
    ∧ buildAirQualityHtml l (some v) (some w)
        = "<div>" ++ airQualityLabel l ++ " · " ++ pm10EntryText l v ++ " · "
          ++ pm25EntryText l w ++ "</div>"
    ∧ buildAirQualityHtml l none (some w)
        = "<div>" ++ airQualityLabel l ++ " · " ++ pm25EntryText l w ++ "</div>"
    ∧ buildAirQualityHtml l (some v) none
        = "<div>" ++ airQualityLabel l ++ " · " ++ pm10EntryText l v ++ "</div>" := by
  refine ⟨buildAir_none l, ?_, buildAir_both l v w, buildAir_pm25_only l w,
    buildAir_pm10_only l v⟩
  constructor
  · intro h
    cases p10 with
    | none =>
      cases p25 with
      | none => exact ⟨rfl, rfl⟩
      | some y =>
        rw [buildAir_pm25_only l y] at h
        exact absurd h (by
          repeat apply append_ne_empty_of_left_ne
          decide)
    | some z =>
      cases p25 with
      | none =>
        rw [buildAir_pm10_only l z] at h
        exact absurd h (by
          repeat apply append_ne_empty_of_left_ne
          decide)
      | some y =>
        rw [buildAir_both l z y] at h
        exact absurd h (by
          repeat apply append_ne_empty_of_left_ne
          decide)
  · rintro ⟨h1, h2⟩
    rw [h1, h2]
    exact buildAir_none l

/-- Rebuilding a string from its character list is the identity. -/
theorem mk_data (s : String) : String.mk s.data = s := by
  cases s
  rfl

/-- String length is the length of the character list. -/
theorem str_length_eq (s : String) : s.length = s.data.length := rfl

/-- A string with a nonempty character list is not the empty string. -/
theorem ne_empty_of_data (s : String) (h : s.data ≠ []) : s ≠ "" := by
  intro hc
  apply h
  rw [hc]

/-- A non-digit character does not occur in an all-digit character list. -/
theorem not_mem_of_all_digit (l : List Char) (c : Char)
    (hl : l.all Char.isDigit = true) (hc : c.isDigit = false) : c ∉ l := by
  intro hm
  rw [List.all_eq_true] at hl
  have h2 := hl c hm
  rw [h2] at hc
  exact Bool.noConfusion hc

/-- Splitting a chunk free of the separator returns it whole (appended to
the pending accumulator). -/
theorem splitCharAux_no_sep (sep : Char) (l : List Char) :
    ∀ acc : List Char, sep ∉ l → splitCharAux sep l acc = [acc.reverse ++ l] := by
  induction l with
  | nil =>
    intro acc _
    simp [splitCharAux]
  | cons c cs ih =>
    intro acc h
    have hc : ¬(c = sep) := fun hce => h (hce ▸ List.mem_cons_self c cs)
    rw [splitCharAux, if_neg hc, ih _ (fun hm => h (List.mem_cons_of_mem _ hm))]
    simp

/-- Splitting at the first separator occurrence cuts off the leading chunk. -/
theorem splitCharAux_sep (sep : Char) (a : List Char) :
    ∀ (rest acc : List Char), sep ∉ a →
      splitCharAux sep (a ++ sep :: rest) acc
        = (acc.reverse ++ a) :: splitCharAux sep rest [] := by
  induction a with
  | nil =>
    intro rest acc _
    simp [splitCharAux]
  | cons c cs ih =>
    intro rest acc h
    have hc : ¬(c = sep) := fun hce => h (hce ▸ List.mem_cons_self c cs)
    rw [List.cons_append, splitCharAux, if_neg hc,
      ih _ _ (fun hm => h (List.mem_cons_of_mem _ hm))]
    simp

/-- A string without the separator splits into the singleton list. -/
theorem splitChar_no_sep (sep : Char) (s : String) (h : sep ∉ s.data) :
    splitChar sep s = [s] := by
  rw [splitChar, splitCharAux_no_sep sep s.data [] h]
  simp [mk_data]

/-- Splitting a string whose character list is `a ++ sep :: b` (with `a`
separator-free) yields `a` followed by the split of `b`. -/
theorem splitChar_cut (sep : Char) (s a b : String)
    (hd : s.data = a.data ++ sep :: b.data) (h : sep ∉ a.data) :
    splitChar sep s = a :: splitChar sep b := by
  rw [splitChar, hd, splitCharAux_sep sep a.data b.data [] h]
  simp [splitChar, mk_data]

/-- A string whose character list has a fixed positive length is nonempty. -/
theorem ne_empty_of_length_two (X : String) (hX : X.data.length = 2) : X ≠ "" := by
  apply ne_empty_of_data
  intro hc
  rw [hc] at hX
  exact absurd hX (by decide)

/-- A well-formed month/day/hour/minute component passes through `Number`
to its decimal value. -/
theorem jsNumStr_digits (X : String) (hd : X.data.all Char.isDigit = true)
    (hl : X.data.length = 2) : jsNumStr (some X) = toString (decDigits X.data) := by
  have h : jsNumberDec (some X) = some (decDigits X.data) := by
    simp only [jsNumberDec]
    rw [if_neg (ne_empty_of_length_two X hl), if_pos hd]
  simp only [jsNumStr, h]

/-- A two-character component passes through `pad2` unchanged. -/
theorem pad2_two (X : String) (hl : X.data.length = 2) : pad2 (some X) = X := by
  simp [pad2, jsStr, padLeftZeros, str_length_eq, hl]

/-- The falsiness test used on the split parts: true exactly for the
missing part and the empty part. -/
theorem jsFalsy_true_iff (o : Option String) :
    jsFalsy o = true ↔ (o = none ∨ o = some "") := by
  cases o with
  | none => simp [jsFalsy]
  | some t => simp [jsFalsy]

/-- Full characterization of the formatter's empty-string result, for every
input string: the empty string comes back exactly when the input is empty
or the split on `"T"` has a missing/empty first or second part; every other
input is assembled into a phrase, which is nonempty because of the fixed
literals in both templates. -/
theorem formatUpdated_empty_iff (lg : Lang) (s : String) :
    formatUpdatedAtLocalized lg s = "" ↔
      (s = ""
        ∨ (splitChar 'T' s).get? 0 = none ∨ (splitChar 'T' s).get? 0 = some ""
        ∨ (splitChar 'T' s).get? 1 = none ∨ (splitChar 'T' s).get? 1 = some "") := by
  by_cases hse : s = ""
  · simp [formatUpdatedAtLocalized, hse]
  · simp only [formatUpdatedAtLocalized, if_neg hse]
    cases hb : jsFalsy ((splitChar 'T' s).get? 0) || jsFalsy ((splitChar 'T' s).get? 1) with
    | true =>
      rw [if_pos rfl]
      constructor
      · intro _
        rcases Bool.or_eq_true_iff.mp hb with h | h
        · rcases (jsFalsy_true_iff _).mp h with h2 | h2
          · exact Or.inr (Or.inl h2)
          · exact Or.inr (Or.inr (Or.inl h2))
        · rcases (jsFalsy_true_iff _).mp h with h2 | h2
          · exact Or.inr (Or.inr (Or.inr (Or.inl h2)))
          · exact Or.inr (Or.inr (Or.inr (Or.inr h2)))
      · intro _
        rfl
    | false =>
      rw [if_neg Bool.false_ne_true]
      have hparts : jsFalsy ((splitChar 'T' s).get? 0) = false
          ∧ jsFalsy ((splitChar 'T' s).get? 1) = false := by
        constructor <;>
          · cases hdp : jsFalsy ((splitChar 'T' s).get? 0) <;>
              cases htp : jsFalsy ((splitChar 'T' s).get? 1) <;>
              rw [hdp, htp] at hb <;> first | rfl | exact Bool.noConfusion hb
      constructor
      · intro hph
        exfalso
        cases lg with
        | ko => exact absurd hph (append_ne_empty_of_right_ne _ _ (by decide))
        | en => exact absurd hph (append_ne_empty_of_right_ne _ _ (by decide))
      · intro hr
        exfalso
        rcases hr with h | h | h | h | h
        · exact hse h
        · rw [h] at hparts
          exact Bool.noConfusion hparts.1
        · rw [h] at hparts
          have := hparts.1
          simp [jsFalsy] at this
        · rw [h] at hparts
          exact Bool.noConfusion hparts.2
        · rw [h] at hparts
          have := hparts.2
          simp [jsFalsy] at this

/-- C2 (amended): the timestamp formatter is total and never throws; on a
well-formed `YYYY-MM-DDTHH:MM` input it produces the Korean phrase with
month and day unpadded (through `Number`) and hour and minute kept as their
two-digit components, and the English phrase with all components kept
zero-padded, both from the same parsed tuple; and for EVERY input string,
in both languages, it returns the empty string exactly when the input is
empty or the split on `"T"` has a missing/empty first or second part.
(Contrary to the claim, NOT every malformed input yields the empty string:
any input clearing that one check — such as `"1Tb"` — is formatted blindly
into a possibly garbled phrase.) -/
theorem c2_timestamp_formatter_amended (Y M D H Mi s : String) (lg : Lang)
    (hYd : Y.data.all Char.isDigit = true) (hYl : Y.data.length = 4)
    (hMd : M.data.all Char.isDigit = true) (hMl : M.data.length = 2)
    (hDd : D.data.all Char.isDigit = true) (hDl : D.data.length = 2)
    (hHd : H.data.all Char.isDigit = true) (hHl : H.data.length = 2)
    (hMid : Mi.data.all Char.isDigit = true) (hMil : Mi.data.length = 2) :
    formatUpdatedAtLocalized Lang.ko (Y ++ "-" ++ M ++ "-" ++ D ++ "T" ++ H ++ ":" ++ Mi)
        = Y ++ "년 " ++ toString (decDigits M.data) ++ "월 " ++ toString (decDigits D.data)
          ++ "일 " ++ H ++ "시 " ++ Mi ++ "분에 업데이트됨"
    ∧ formatUpdatedAtLocalized Lang.en (Y ++ "-" ++ M ++ "-" ++ D ++ "T" ++ H ++ ":" ++ Mi)
        = "Updated at " ++ Y ++ "-" ++ M ++ "-" ++ D ++ " " ++ H ++ ":" ++ Mi ++ " (KST)"
    ∧ (formatUpdatedAtLocalized lg s = "" ↔
        (s = ""
          ∨ (splitChar 'T' s).get? 0 = none ∨ (splitChar 'T' s).get? 0 = some ""
          ∨ (splitChar 'T' s).get? 1 = none ∨ (splitChar 'T' s).get? 1 = some "")) := by
  have hYt := not_mem_of_all_digit Y.data 'T' hYd (by decide)
  have hMt := not_mem_of_all_digit M.data 'T' hMd (by decide)
  have hDt := not_mem_of_all_digit D.data 'T' hDd (by decide)
  have hHt := not_mem_of_all_digit H.data 'T' hHd (by decide)
  have hMit := not_mem_of_all_digit Mi.data 'T' hMid (by decide)
  have hYdash := not_mem_of_all_digit Y.data '-' hYd (by decide)
  have hMdash := not_mem_of_all_digit M.data '-' hMd (by decide)
  have hDdash := not_mem_of_all_digit D.data '-' hDd (by decide)
  have hHcol := not_mem_of_all_digit H.data ':' hHd (by decide)
  have hMicol := not_mem_of_all_digit Mi.data ':' hMid (by decide)
  have hdata1 : (Y ++ "-" ++ M ++ "-" ++ D ++ "T" ++ H ++ ":" ++ Mi).data
      = (Y ++ "-" ++ M ++ "-" ++ D).data ++ 'T' :: (H ++ ":" ++ Mi).data := by
    simp [string_data_append]
  have hdata2 : (Y ++ "-" ++ M ++ "-" ++ D).data
      = Y.data ++ '-' :: (M ++ "-" ++ D).data := by
    simp [string_data_append]
  have hdata3 : (M ++ "-" ++ D).data = M.data ++ '-' :: D.data := by
    simp [string_data_append]
  have hdata4 : (H ++ ":" ++ Mi).data = H.data ++ ':' :: Mi.data := by
    simp [string_data_append]
  have hTdp : 'T' ∉ (Y ++ "-" ++ M ++ "-" ++ D).data := by
    simp [string_data_append, hYt, hMt, hDt, (by decide : ('T' : Char) ≠ '-')]
  have hTtp : 'T' ∉ (H ++ ":" ++ Mi).data := by
    simp [string_data_append, hHt, hMit, (by decide : ('T' : Char) ≠ ':')]
  have hsplitT : splitChar 'T' (Y ++ "-" ++ M ++ "-" ++ D ++ "T" ++ H ++ ":" ++ Mi)
      = (Y ++ "-" ++ M ++ "-" ++ D) :: splitChar 'T' (H ++ ":" ++ Mi) :=
    splitChar_cut _ _ _ _ hdata1 hTdp
  have hsplitT2 : splitChar 'T' (H ++ ":" ++ Mi) = [H ++ ":" ++ Mi] :=
    splitChar_no_sep _ _ hTtp
  have hsplitD1 : splitChar '-' (Y ++ "-" ++ M ++ "-" ++ D)
      = Y :: splitChar '-' (M ++ "-" ++ D) :=
    splitChar_cut _ _ _ _ hdata2 hYdash
  have hsplitD2 : splitChar '-' (M ++ "-" ++ D) = M :: splitChar '-' D :=
    splitChar_cut _ _ _ _ hdata3 hMdash
  have hsplitD3 : splitChar '-' D = [D] := splitChar_no_sep _ _ hDdash
  have hsplitH1 : splitChar ':' (H ++ ":" ++ Mi) = H :: splitChar ':' Mi :=
    splitChar_cut _ _ _ _ hdata4 hHcol
  have hsplitH2 : splitChar ':' Mi = [Mi] := splitChar_no_sep _ _ hMicol
  have hinput_ne : (Y ++ "-" ++ M ++ "-" ++ D ++ "T" ++ H ++ ":" ++ Mi) ≠ "" := by
    apply ne_empty_of_data
    rw [hdata1]
    intro hc
    simp at hc
  have hdpne : (Y ++ "-" ++ M ++ "-" ++ D) ≠ "" := by
    apply ne_empty_of_data
    rw [hdata2]
    intro hc
    simp at hc
  have htpne : (H ++ ":" ++ Mi) ≠ "" := by
    apply ne_empty_of_data
    rw [hdata4]
    intro hc
    simp at hc
  have hnumM := jsNumStr_digits M hMd hMl
  have hnumD := jsNumStr_digits D hDd hDl
  have hpadM := pad2_two M hMl
  have hpadD := pad2_two D hDl
  have hpadH := pad2_two H hHl
  have hpadMi := pad2_two Mi hMil
  refine ⟨?_, ?_, formatUpdated_empty_iff lg s⟩
  · simp only [formatUpdatedAtLocalized]
    rw [if_neg hinput_ne, hsplitT, hsplitT2]
    simp only [List.get?_cons_zero, List.get?_cons_succ, jsFalsy, jsStr]
    rw [if_neg (by simp [hdpne, htpne])]
    rw [hsplitD1, hsplitD2, hsplitD3, hsplitH1, hsplitH2]
    simp only [List.get?_cons_zero, List.get?_cons_succ, jsStr]
    rw [hnumM, hnumD, hpadH, hpadMi]
  · simp only [formatUpdatedAtLocalized]
    rw [if_neg hinput_ne, hsplitT, hsplitT2]
    simp only [List.get?_cons_zero, List.get?_cons_succ, jsFalsy, jsStr]
    rw [if_neg (by simp [hdpne, htpne])]
    rw [hsplitD1, hsplitD2, hsplitD3, hsplitH1, hsplitH2]
    simp only [List.get?_cons_zero, List.get?_cons_succ, jsStr]
    rw [hpadM, hpadD, hpadH, hpadMi]

/-- C2 counterexample: `"1Tb"` is not in the `YYYY-MM-DDTHH:MM` layout, yet
the formatter does not return the empty string: the only rejection is a
missing/empty part around the first `"T"`, so the malformed input is
formatted blindly into a garbled phrase. -/
theorem c2_counterexample :
    formatUpdatedAtLocalized Lang.ko "1Tb" = "1년 NaN월 NaN일 0b시 undefined분에 업데이트됨"
    ∧ formatUpdatedAtLocalized Lang.ko "1Tb" ≠ "" := by
  constructor
  · decide
  · decide

/-- C2 witness: the amended theorem applied at the concrete well-formed
input `"2025-11-26T21:00"` and, for the empty-string characterization, at
the concrete input `"Tb"` whose first `"T"`-segment is empty. -/
theorem c2_witness :
    ("2025" : String).data.all Char.isDigit = true
    ∧ ("2025" : String).data.length = 4
    ∧ formatUpdatedAtLocalized Lang.ko
        ("2025" ++ "-" ++ "11" ++ "-" ++ "26" ++ "T" ++ "21" ++ ":" ++ "00")
        = "2025" ++ "년 " ++ toString (decDigits ("11" : String).data) ++ "월 "
          ++ toString (decDigits ("26" : String).data)
          ++ "일 " ++ "21" ++ "시 " ++ "00" ++ "분에 업데이트됨"
    ∧ (formatUpdatedAtLocalized Lang.ko "Tb" = "" ↔
        (("Tb" : String) = ""
          ∨ (splitChar 'T' "Tb").get? 0 = none ∨ (splitChar 'T' "Tb").get? 0 = some ""
          ∨ (splitChar 'T' "Tb").get? 1 = none ∨ (splitChar 'T' "Tb").get? 1 = some "")) :=
  have happ := c2_timestamp_formatter_amended "2025" "11" "26" "21" "00" "Tb" Lang.ko
    (by decide) (by decide) (by decide) (by decide) (by decide) (by decide)
    (by decide) (by decide) (by decide) (by decide)
  ⟨by decide, by decide, happ.1, happ.2.2⟩

/-- C3 (amended): the card's rendered tag list is the language-specific tag
sequence rendered verbatim — one badge per raw tag, in original order, with
no empty-entry dropping, no badge suppression and no deduplication; the
block is omitted only when the raw list is empty. -/
theorem c3_tags_amended (l : Lang) (info : CourseInfo) :
    (langTags l info ≠ [] →
      tagListHtml (langTags l info)
        = "<div style=\"margin-bottom:4px;\">"
          ++ String.join ((langTags l info).map badgeSpanHtml) ++ "</div>")
    ∧ (langTags l info = [] → tagListHtml (langTags l info) = "")
    ∧ ((langTags l info).map badgeSpanHtml).length = (langTags l info).length := by
  refine ⟨?_, ?_, List.length_map _ _⟩
  · intro h
    unfold tagListHtml
    rw [if_pos (fun hc => h (List.length_eq_zero.mp hc))]
  · intro h
    rw [h]
    rfl

/-- C3 counterexample: the claim says the rendered list is the
deduplicated, empty-filtered sequence; on a record whose Korean tags are
`["약간 젖음", "약간 젖음", ""]` that sequence is `["약간 젖음"]`, but the card
renders the raw three-entry list, which produces different HTML. -/
theorem c3_counterexample :
    dedupTagsSpec none (langTags Lang.ko infoTagsOnly) = ["약간 젖음"]
    ∧ tagListHtml (langTags Lang.ko infoTagsOnly)
        ≠ tagListHtml (dedupTagsSpec none (langTags Lang.ko infoTagsOnly)) := by
  constructor
  · decide
  · decide

/-- C3 witness: the amended theorem applied to the concrete record with a
duplicate and an empty tag. -/
theorem c3_witness :
    langTags Lang.ko infoTagsOnly ≠ []
    ∧ tagListHtml (langTags Lang.ko infoTagsOnly)
        = "<div style=\"margin-bottom:4px;\">"
          ++ String.join ((langTags Lang.ko infoTagsOnly).map badgeSpanHtml) ++ "</div>" :=
  ⟨by decide, (c3_tags_amended Lang.ko infoTagsOnly).1 (by decide)⟩

/-- C4 (code bug): the claim — and the spec — require per-card rendering to
be total, but composing a card for a record with `temperature` (and the
other `.toFixed` operands) missing throws, and the throw aborts the
`forEach`, so the remaining records are not rendered; the same sparse
record placed second shows the prefix that was already rendered is kept,
and a record carrying the four numeric fields renders fine. -/
theorem c4_card_render_throws :
    renderCourseCard Lang.ko emptyInfo = Except.error ()
    ∧ renderCards Lang.ko [emptyInfo, wellFormedInfo] = ([], true)
    ∧ (∃ card, renderCards Lang.ko [wellFormedInfo, emptyInfo] = ([card], true))
    ∧ (∃ card, renderCourseCard Lang.ko wellFormedInfo = Except.ok card) := by
  refine ⟨rfl, rfl, ⟨_, rfl⟩, ⟨_, rfl⟩⟩

/-- C10 (confirmed): the last-updated line is derived solely from the first
record — no payload, a missing `courses` field, an empty `courses` array,
or a first record without `updated_at` all render the empty string, and the
other records' `updated_at` values never influence the output. -/
theorem c10_updated_line (l : Lang) (c c2 : CourseInfo) (rest rest2 : List CourseInfo)
    (hc : c.updated_at = none) :
    updatedTextFor l none = ""
    ∧ updatedTextFor l (some ⟨none⟩) = ""
    ∧ updatedTextFor l (some ⟨some []⟩) = ""
    ∧ updatedTextFor l (some ⟨some (c :: rest)⟩) = ""
    ∧ updatedTextFor l (some ⟨some (c2 :: rest)⟩)
        = updatedTextFor l (some ⟨some (c2 :: rest2)⟩) := by
  refine ⟨rfl, rfl, rfl, ?_, rfl⟩
  simp only [updatedTextFor, getCommonUpdatedAt, hc]

/-- C10 witness: the theorem applied at a concrete single-record payload
whose record has no `updated_at`. -/
theorem c10_witness :
    emptyInfo.updated_at = none
    ∧ updatedTextFor Lang.ko (some ⟨some [emptyInfo]⟩) = "" :=
  ⟨rfl, (c10_updated_line Lang.ko emptyInfo emptyInfo [] [] rfl).2.2.2.1⟩

/-- C5 (confirmed): on a failed fetch, `init` leaves the stored payload and
the rendered cards untouched and ends with the localized failure message in
the status area; given the text fields already agree with the current
language and payload (as after any full render), the whole transition
changes nothing but the status line (and the ghost fetch counter). -/
theorem c5_fetch_failure_state (s : AppState) (e : Unit) (h : titlesConsistent s) :
    init (Except.error e) s
      = { s with
          statusHtml := "<p>" ++ failText s.currentLang ++ "</p>",
          fetchCount := s.fetchCount + 1 }
    ∧ (init (Except.error e) s).lastData = s.lastData
    ∧ (init (Except.error e) s).coursesHtml = s.coursesHtml
    ∧ (init (Except.error e) s).statusHtml
        = "<p>" ++ failText s.currentLang ++ "</p>" := by
  obtain ⟨h1, h2, h3, h4, h5⟩ := h
  have hmain : init (Except.error e) s
      = { s with
          statusHtml := "<p>" ++ failText s.currentLang ++ "</p>",
          fetchCount := s.fetchCount + 1 } := by
    cases s with
    | mk cl ld st ch t1 t2 t3 ab ut fc =>
      simp only [init, applyLanguageFn, renderStatusFn, renderUpdatedAtFn] at h1 h2 h3 h4 h5 ⊢
      simp_all
  rw [hmain]
  exact ⟨rfl, rfl, rfl, rfl⟩

/-- C5 witness: the theorem applied at the concrete rendered state for
Korean with no payload. -/
theorem c5_witness :
    titlesConsistent (mkState Lang.ko none 0)
    ∧ init (Except.error ()) (mkState Lang.ko none 0)
        = { mkState Lang.ko none 0 with
            statusHtml := "<p>" ++ failText (mkState Lang.ko none 0).currentLang ++ "</p>",
            fetchCount := (mkState Lang.ko none 0).fetchCount + 1 } :=
  ⟨⟨rfl, rfl, rfl, rfl, rfl⟩,
    (c5_fetch_failure_state (mkState Lang.ko none 0) () ⟨rfl, rfl, rfl, rfl, rfl⟩).1⟩

/-- Switching to a different language from a fully-rendered state yields
exactly the fully-rendered state of the new language over the same payload
and fetch count. -/
theorem clickLang_switch (lp l : Lang) (d : Option FeedPayload) (fc : ℕ)
    (hne : ¬ lp = l) :
    clickLang (some lp) (mkState l d fc) = mkState lp d fc := by
  have hcur : (mkState l d fc).currentLang = l := by cases d <;> rfl
  simp only [clickLang]
  split
  · rename_i heq
    rw [hcur] at heq
    exact absurd heq hne
  · cases d <;> rfl

/-- C9 (confirmed): over a cached payload, clicking the active language (or
a button without a language) is a no-op, the ko→en→ko round trip reproduces
the original fully-rendered Korean state byte-for-byte (cards included),
and no fetch happens (the ghost fetch counter is unchanged). -/
theorem c9_language_toggle (d : Option FeedPayload) (fc : ℕ) :
    clickLang (some Lang.ko) (mkState Lang.ko d fc) = mkState Lang.ko d fc
    ∧ clickLang none (mkState Lang.ko d fc) = mkState Lang.ko d fc
    ∧ clickLang (some Lang.ko) (clickLang (some Lang.en) (mkState Lang.ko d fc))
        = mkState Lang.ko d fc
    ∧ (clickLang (some Lang.ko) (clickLang (some Lang.en) (mkState Lang.ko d fc))).fetchCount
        = fc := by
  have hcur : (mkState Lang.ko d fc).currentLang = Lang.ko := by cases d <;> rfl
  have hne1 : clickLang (some Lang.en) (mkState Lang.ko d fc) = mkState Lang.en d fc :=
    clickLang_switch Lang.en Lang.ko d fc (by decide)
  have hne2 : clickLang (some Lang.ko) (mkState Lang.en d fc) = mkState Lang.ko d fc :=
    clickLang_switch Lang.ko Lang.en d fc (by decide)
  have hfc : (mkState Lang.ko d fc).fetchCount = fc := by cases d <;> rfl
  have hnoop : clickLang (some Lang.ko) (mkState Lang.ko d fc) = mkState Lang.ko d fc := by
    simp only [clickLang]
    rw [if_pos hcur.symm]
  refine ⟨hnoop, rfl, ?_, ?_⟩
  · rw [hne1, hne2]
  · rw [hne1, hne2, hfc]

end SrcWeather
